import Mathlib

/-!
# MelodyneInstanceFactory (tracktion_engine, plugins/ARA)

A shallow embedding of `tracktion_MelodyneInstanceFactory.h`.

* Pointers are `Option`s: `none` is `nullptr`.
* Calls that leave the translation unit (plugin manager, VST3 component, ARA
  factory and entry points, logging, assertions) are recorded, in program
  order, in a trace of `Event`s that every function returns next to its value.
* Member functions take the `MelodyneInstanceFactory` object they run on and
  return the object as they leave it.
* Dereferencing a null or deleted pointer is a `Fault`; functions that can
  reach one return `Except Fault _`.
* `TRACKTION_ASSERT_MESSAGE_THREAD` and `CRASH_TRACER` have no counterpart:
  the model is single threaded.
-/

namespace Tracktion

/-! ## Parameters: ARA SDK constants and JUCE build switches -/

/-- The ARA SDK enumerators the source names. They are declared in the SDK
header, not in the source file, so the embedding takes them as a parameter. -/
structure ARAConstants where
  kARAAPIGeneration_1_0_Final : Int
  kARAAPIGeneration_2_0_Draft : Int
  kARAAPIGeneration_2_0_Final : Int
  kARAPlaybackTransformationTimestretch : Nat
  kARAPlaybackTransformationTimestretchReflectingTempo : Nat
  kARAPlaybackRendererRole : Nat
  kARAEditorRendererRole : Nat
  kARAEditorViewRole : Nat
  kARAInterfaceConfigurationMinSize : Nat

/-- The values `ARAInterface.h` of the ARA SDK gives the enumerators
(generations 1.0 draft = 1, 1.0 final = 2, 2.0 draft = 3, 2.0 final = 4; flags
and roles are single bits). `kARAInterfaceConfigurationMinSize` depends on the
target's struct layout; no property below depends on its value. -/
def araSDK : ARAConstants where
  kARAAPIGeneration_1_0_Final := 2
  kARAAPIGeneration_2_0_Draft := 3
  kARAAPIGeneration_2_0_Final := 4
  kARAPlaybackTransformationTimestretch := 1
  kARAPlaybackTransformationTimestretchReflectingTempo := 2
  kARAPlaybackRendererRole := 1
  kARAEditorRendererRole := 2
  kARAEditorViewRole := 4
  kARAInterfaceConfigurationMinSize := 24

/-- The preprocessor switches the source and the JUCE assertion macros test. -/
structure Build where
  JUCE_LOG_ASSERTIONS : Bool
  JUCE_DEBUG : Bool
  deriving DecidableEq, Repr

/-! ## Data model -/

/-- An `ARADocumentControllerRef` handle; `none` is `nullptr`. -/
abbrev ARADocumentControllerRef := Option Nat

/-- A `const ARAPlugInExtensionInstance*`; `none` is `nullptr`. -/
abbrev ARAPlugInExtensionInstancePtr := Option Nat

/-- The fields of `ARAFactory` the source reads. `ARAInt32` generations are
integers; the flag word is its bit pattern. -/
structure ARAFactory where
  lowestSupportedApiGeneration : Int
  highestSupportedApiGeneration : Int
  supportedPlaybackTransformationFlags : Nat
  deriving DecidableEq, Repr

/-- The aggregate `{ structSize, desiredApiGeneration, assertFunctionAddress }`;
the last field records whether the pointer is non-null. -/
structure ARAInterfaceConfiguration where
  structSize : Nat
  desiredApiGeneration : Int
  assertFunctionAddress : Bool
  deriving DecidableEq, Repr

structure PluginDescription where
  name : String
  pluginFormatName : String
  deriving DecidableEq, Repr

/-- The two interface ids `getVST3EntryPoint` is instantiated with. -/
inductive InterfaceId where
  | IPlugInEntryPoint
  | IPlugInEntryPoint2
  deriving DecidableEq, Repr

/-- Every call that leaves the translation unit. Binding calls carry the
handle the module returned. -/
inductive Event where
  | getARACompatiblePlugDescriptions
  | createPluginInstance (pd : PluginDescription) (sampleRate blockSize : Nat)
  | deletePluginInstance
  | queryInterface (iid : InterfaceId)
  | getFactory
  | initializeARAWithConfiguration (factory : ARAFactory) (config : ARAInterfaceConfiguration)
  | uninitializeARA (factory : ARAFactory)
  | bindToDocumentController (dcRef : ARADocumentControllerRef)
      (result : ARAPlugInExtensionInstancePtr)
  | bindToDocumentControllerWithRoles (dcRef : ARADocumentControllerRef)
      (knownRoles assumedRoles : Nat) (result : ARAPlugInExtensionInstancePtr)
  | logError (message : String)
  | jassertfalse
  deriving DecidableEq, Repr

abbrev Trace := List Event

/-- The ARA1 VST3 entry point: `getFactory()` and `bindToDocumentController`. -/
structure IPlugInEntryPoint where
  getFactory : Option ARAFactory
  bindToDocumentController : ARADocumentControllerRef → ARAPlugInExtensionInstancePtr

/-- The ARA2 VST3 entry point: `bindToDocumentControllerWithRoles`. -/
structure IPlugInEntryPoint2 where
  bindToDocumentControllerWithRoles :
    ARADocumentControllerRef → Nat → Nat → ARAPlugInExtensionInstancePtr

/-- A `Steinberg::Vst::IComponent`: what `queryInterface` stores for each of the
two interface ids (`none`: the out-pointer stays null). -/
structure IComponent where
  queryIPlugInEntryPoint : Option IPlugInEntryPoint
  queryIPlugInEntryPoint2 : Option IPlugInEntryPoint2

/-- An `AudioPluginInstance`: `getPluginDescription()` and
`getPlatformSpecificData()`. -/
structure AudioPluginInstance where
  pluginDescription : PluginDescription
  platformSpecificData : Option IComponent

/-- An `ExternalPlugin`: `getAudioPluginInstance()`. -/
structure ExternalPlugin where
  audioPluginInstance : Option AudioPluginInstance

structure MelodyneInstance where
  plugin : ExternalPlugin
  factory : Option ARAFactory := none
  extensionInstance : ARAPlugInExtensionInstancePtr := none

/-- The data members of `MelodyneInstanceFactory`. -/
structure MelodyneInstanceFactory where
  factory : Option ARAFactory := none
  plugin : Option AudioPluginInstance := none

/-- The plugin manager behind `Engine::getInstance().getPluginManager()`. -/
structure Engine where
  getARACompatiblePlugDescriptions : List PluginDescription
  createPluginInstance : PluginDescription → Nat → Nat → Option AudioPluginInstance

inductive Fault where
  | nullPointerDereference
  | danglingPointer
  deriving DecidableEq, Repr

/-- The function-local `static MelodyneInstanceFactory* instance`: zero
initialised, pointing to a live object, or left pointing to an object that
`delete` destroyed (whose last field values are kept for inspection). -/
inductive InstancePointer where
  | null
  | object (s : MelodyneInstanceFactory)
  | deleted (stale : MelodyneInstanceFactory)

/-! ## JUCE assertion macros -/

/-- `jassertfalse`: reports the assertion when `JUCE_LOG_ASSERTIONS` or
`JUCE_DEBUG` is set, and expands to nothing otherwise. -/
def jassertfalse (B : Build) : Trace :=
  if B.JUCE_LOG_ASSERTIONS || B.JUCE_DEBUG then [Event.jassertfalse] else []

/-- `jassert (expression)`. -/
def jassert (B : Build) (expression : Bool) : Trace :=
  if expression then [] else jassertfalse B

/-! ## Discovery -/

/-- `createMelodynePlugin (formatToTry, araDescs)`: the loop over `araDescs`. -/
def createMelodynePluginFor (E : Engine) (formatToTry : String) :
    List PluginDescription → Option AudioPluginInstance × Trace
  | [] => (none, [])
  | pd :: rest =>
    if pd.pluginFormatName = formatToTry then
      match E.createPluginInstance pd 44100 512 with
      | some p => (some p, [Event.createPluginInstance pd 44100 512])
      | none =>
        let r := createMelodynePluginFor E formatToTry rest
        (r.1, Event.createPluginInstance pd 44100 512 :: r.2)
    else createMelodynePluginFor E formatToTry rest

/-- `createMelodynePlugin()`. -/
def createMelodynePlugin (E : Engine) : Option AudioPluginInstance × Trace :=
  let araDescs := E.getARACompatiblePlugDescriptions
  let r := createMelodynePluginFor E "VST3" araDescs
  match r.1 with
  | some p => (some p, Event.getARACompatiblePlugDescriptions :: r.2)
  | none => (none, Event.getARACompatiblePlugDescriptions :: r.2)

/-! ## Factory negotiation -/

/-- `getVST3EntryPoint<IPlugInEntryPoint> (p)`. -/
def getVST3EntryPoint (p : AudioPluginInstance) : Option IPlugInEntryPoint × Trace :=
  match p.platformSpecificData with
  | some component =>
    (component.queryIPlugInEntryPoint, [Event.queryInterface InterfaceId.IPlugInEntryPoint])
  | none => (none, [])

/-- `getVST3EntryPoint<IPlugInEntryPoint2> (p)`. -/
def getVST3EntryPoint2 (p : AudioPluginInstance) : Option IPlugInEntryPoint2 × Trace :=
  match p.platformSpecificData with
  | some component =>
    (component.queryIPlugInEntryPoint2, [Event.queryInterface InterfaceId.IPlugInEntryPoint2])
  | none => (none, [])

/-- `getFactoryVST3()`, on the sentinel's `*plugin`. -/
def getFactoryVST3 (s : MelodyneInstanceFactory) : Except Fault (Option ARAFactory × Trace) :=
  match s.plugin with
  | none => .error Fault.nullPointerDereference
  | some plugin =>
    let r := getVST3EntryPoint plugin
    match r.1 with
    | some ep => .ok (ep.getFactory, r.2 ++ [Event.getFactory])
    | none => .ok (none, r.2)

/-- `getFactoryForPlugin()`. -/
def getFactoryForPlugin (K : ARAConstants) (s : MelodyneInstanceFactory) :
    Except Fault (MelodyneInstanceFactory × Trace) :=
  match s.plugin with
  | none => .error Fault.nullPointerDereference
  | some plugin =>
    let type := plugin.pluginDescription.pluginFormatName
    let step : Except Fault (MelodyneInstanceFactory × Trace) :=
      if type = "VST3" then
        match getFactoryVST3 s with
        | .ok r => .ok ({ s with factory := r.1 }, r.2)
        | .error e => .error e
      else .ok (s, [])
    match step with
    | .error e => .error e
    | .ok (s1, t) =>
      match s1.factory with
      | some f =>
        if f.lowestSupportedApiGeneration > K.kARAAPIGeneration_2_0_Final then
          .ok ({ s1 with factory := none }, t)
        else .ok (s1, t)
      | none => .ok (s1, t)

/-- `canBeUsedAsTimeStretchEngine (factory)`. -/
def canBeUsedAsTimeStretchEngine (K : ARAConstants) (factory : ARAFactory) : Bool :=
  (factory.supportedPlaybackTransformationFlags &&& K.kARAPlaybackTransformationTimestretch) != 0
    && (factory.supportedPlaybackTransformationFlags
          &&& K.kARAPlaybackTransformationTimestretchReflectingTempo) != 0

/-! ## Construction and destruction -/

/-- The constructor `MelodyneInstanceFactory()`: the object it leaves and the
calls it made. Assigning `nullptr` to the owning `plugin` deletes the instance. -/
def MelodyneInstanceFactory.construct (K : ARAConstants) (B : Build) (E : Engine) :
    Except Fault (MelodyneInstanceFactory × Trace) :=
  let created := createMelodynePlugin E
  let s0 : MelodyneInstanceFactory := { factory := none, plugin := created.1 }
  if s0.plugin.isSome then
    match getFactoryForPlugin K s0 with
    | .error e => .error e
    | .ok (s1, t1) =>
      match s1.factory with
      | some factory =>
        if canBeUsedAsTimeStretchEngine K factory then
          let apiGeneration :=
            if factory.highestSupportedApiGeneration ≥ K.kARAAPIGeneration_2_0_Draft then
              K.kARAAPIGeneration_2_0_Draft
            else K.kARAAPIGeneration_1_0_Final
          let assertFuncPtr := B.JUCE_LOG_ASSERTIONS || B.JUCE_DEBUG
          let interfaceConfig : ARAInterfaceConfiguration :=
            { structSize := K.kARAInterfaceConfigurationMinSize
              desiredApiGeneration := apiGeneration
              assertFunctionAddress := assertFuncPtr }
          .ok (s1, created.2 ++ t1
                ++ [Event.initializeARAWithConfiguration factory interfaceConfig])
        else
          .ok ({ s1 with factory := none, plugin := none },
               created.2 ++ t1
                ++ [Event.logError "ARA-compatible plugin could not be used for time-stretching!"]
                ++ jassertfalse B ++ [Event.deletePluginInstance])
      | none =>
        .ok ({ s1 with plugin := none },
             created.2 ++ t1 ++ jassertfalse B ++ [Event.deletePluginInstance])
  else .ok (s0, created.2)

/-- The destructor body `~MelodyneInstanceFactory()`. -/
def MelodyneInstanceFactory.destruct (s : MelodyneInstanceFactory) :
    MelodyneInstanceFactory × Trace :=
  let t1 := match s.factory with
    | some factory => [Event.uninitializeARA factory]
    | none => []
  let t2 := match s.plugin with
    | some _ => [Event.deletePluginInstance]
    | none => []
  ({ s with plugin := none }, t1 ++ t2)

/-- `getInstance()`: the object returned, the static pointer afterwards, the
calls made. -/
def getInstance (K : ARAConstants) (B : Build) (E : Engine) (p : InstancePointer) :
    Except Fault (MelodyneInstanceFactory × InstancePointer × Trace) :=
  match p with
  | .null =>
    match MelodyneInstanceFactory.construct K B E with
    | .ok (s, t) => .ok (s, .object s, t)
    | .error e => .error e
  | .object s => .ok (s, .object s, [])
  | .deleted _ => .error Fault.danglingPointer

/-- `shutdown()`: `delete getInstancePointer()`; the pointer itself is not
assigned. -/
def shutdown (p : InstancePointer) : Except Fault (InstancePointer × Trace) :=
  match p with
  | .null => .ok (.null, [])
  | .object s =>
    let r := MelodyneInstanceFactory.destruct s
    .ok (.deleted r.1, r.2)
  | .deleted _ => .error Fault.danglingPointer

/-! ## Binding -/

/-- The local `allRoles` of `setExtensionInstanceVST3`. -/
def allRoles (K : ARAConstants) : Nat :=
  K.kARAPlaybackRendererRole ||| K.kARAEditorRendererRole ||| K.kARAEditorViewRole

/-- `setExtensionInstanceVST3 (w, dcRef)`. -/
def setExtensionInstanceVST3 (K : ARAConstants) (w : MelodyneInstance)
    (dcRef : ARADocumentControllerRef) : Bool × MelodyneInstance × Trace :=
  let r : MelodyneInstance × Trace :=
    match w.plugin.audioPluginInstance with
    | some p =>
      let vst3EntryPoint := getVST3EntryPoint p
      let vst3EntryPoint2 := getVST3EntryPoint2 p
      let queries := vst3EntryPoint.2 ++ vst3EntryPoint2.2
      match vst3EntryPoint2.1 with
      | some ep2 =>
        let h := ep2.bindToDocumentControllerWithRoles dcRef (allRoles K) (allRoles K)
        ({ w with extensionInstance := h },
         queries ++ [Event.bindToDocumentControllerWithRoles dcRef (allRoles K) (allRoles K) h])
      | none =>
        match vst3EntryPoint.1 with
        | some ep =>
          let h := ep.bindToDocumentController dcRef
          ({ w with extensionInstance := h },
           queries ++ [Event.bindToDocumentController dcRef h])
        | none => (w, queries)
    | none => (w, [])
  (r.1.extensionInstance.isSome, r.1, r.2)

/-- `setExtensionInstance (w, dcRef)`, on the sentinel `s`. -/
def setExtensionInstance (K : ARAConstants) (s : MelodyneInstanceFactory)
    (w : MelodyneInstance) (dcRef : ARADocumentControllerRef) :
    Except Fault (Bool × MelodyneInstance × Trace) :=
  if dcRef = none then .ok (false, w, [])
  else
    match s.plugin with
    | none => .error Fault.nullPointerDereference
    | some plugin =>
      let type := plugin.pluginDescription.pluginFormatName
      if type = "VST3" then .ok (setExtensionInstanceVST3 K w dcRef)
      else .ok (false, w, [])

/-- `createInstance (p, dcRef)`, on the sentinel `s`: the pointer returned, the
sentinel afterwards, the calls made. -/
def createInstance (K : ARAConstants) (B : Build) (s : MelodyneInstanceFactory)
    (p : ExternalPlugin) (dcRef : ARADocumentControllerRef) :
    Except Fault (Option MelodyneInstance × MelodyneInstanceFactory × Trace) :=
  let t0 := jassert B s.plugin.isSome
  let w : MelodyneInstance := { plugin := p, factory := s.factory, extensionInstance := none }
  match setExtensionInstance K s w dcRef with
  | .error e => .error e
  | .ok (ok, w1, t1) =>
    if ! ok then .ok (none, s, t0 ++ t1)
    else .ok (some w1, s, t0 ++ t1)

/-! ## Reading traces -/

/-- The handles returned by the binding calls of a trace, in order. -/
def bindingResults : Trace → List ARAPlugInExtensionInstancePtr
  | [] => []
  | Event.bindToDocumentController _ h :: t => h :: bindingResults t
  | Event.bindToDocumentControllerWithRoles _ _ _ h :: t => h :: bindingResults t
  | _ :: t => bindingResults t

def Event.isBinding : Event → Bool
  | Event.bindToDocumentController _ _ => true
  | Event.bindToDocumentControllerWithRoles _ _ _ _ => true
  | _ => false

def Event.isQueryInterface : Event → Bool
  | Event.queryInterface _ => true
  | _ => false

def Event.isInitializeARA : Event → Bool
  | Event.initializeARAWithConfiguration _ _ => true
  | _ => false

def Event.isUninitializeARA : Event → Bool
  | Event.uninitializeARA _ => true
  | _ => false

def Event.isCreatePluginInstance : Event → Bool
  | Event.createPluginInstance _ _ _ => true
  | _ => false

/-- The descriptors `createMelodynePlugin()` lets through its format test. -/
def vst3Descriptions (E : Engine) : List PluginDescription :=
  E.getARACompatiblePlugDescriptions.filter (fun pd => pd.pluginFormatName = "VST3")

/-- `n` successive calls of `getInstance()`: the objects returned, the static
pointer afterwards, the calls made. -/
def getInstanceTimes (K : ARAConstants) (B : Build) (E : Engine) :
    Nat → InstancePointer → Except Fault (List MelodyneInstanceFactory × InstancePointer × Trace)
  | 0, p => .ok ([], p, [])
  | n + 1, p =>
    match getInstance K B E p with
    | .error e => .error e
    | .ok (s, p1, t1) =>
      match getInstanceTimes K B E n p1 with
      | .error e => .error e
      | .ok (ss, p2, t2) => .ok (s :: ss, p2, t1 ++ t2)

/-! ## Sample inputs -/

namespace Sample

def releaseBuild : Build := { JUCE_LOG_ASSERTIONS := false, JUCE_DEBUG := false }

def debugBuild : Build := { JUCE_LOG_ASSERTIONS := false, JUCE_DEBUG := true }

def melodyneDesc : PluginDescription := { name := "Melodyne", pluginFormatName := "VST3" }

def otherDesc : PluginDescription := { name := "Melodyne", pluginFormatName := "AudioUnit" }

def brokenDesc : PluginDescription := { name := "Broken", pluginFormatName := "VST3" }

/-- An entry point pair that hands out handle 200 + dc through the ARA2 call
(when asked for all three roles) and 100 + dc through the ARA1 call. -/
def entryPoint (f : ARAFactory) : IPlugInEntryPoint :=
  { getFactory := some f
    bindToDocumentController := fun dc => dc.map (fun n => n + 100) }

def entryPoint2 : IPlugInEntryPoint2 :=
  { bindToDocumentControllerWithRoles := fun dc known assumed =>
      if known = 7 ∧ assumed = 7 then dc.map (fun n => n + 200) else none }

/-- A VST3 instance exposing both entry points, with factory `f`. -/
def instanceWith (f : ARAFactory) : AudioPluginInstance :=
  { pluginDescription := melodyneDesc
    platformSpecificData := some
      { queryIPlugInEntryPoint := some (entryPoint f)
        queryIPlugInEntryPoint2 := some entryPoint2 } }

/-- A VST3 instance exposing only the ARA1 entry point. -/
def legacyInstance (f : ARAFactory) : AudioPluginInstance :=
  { pluginDescription := melodyneDesc
    platformSpecificData := some
      { queryIPlugInEntryPoint := some (entryPoint f)
        queryIPlugInEntryPoint2 := none } }

/-- A plugin manager listing an AudioUnit descriptor, a VST3 descriptor that
fails to instantiate and a VST3 descriptor that yields `instanceWith f`. -/
def engineWith (f : ARAFactory) : Engine :=
  { getARACompatiblePlugDescriptions := [otherDesc, brokenDesc, melodyneDesc]
    createPluginInstance := fun pd _ _ =>
      if pd = melodyneDesc then some (instanceWith f) else none }

/-- A plugin manager with no ARA-compatible descriptor. -/
def emptyEngine : Engine :=
  { getARACompatiblePlugDescriptions := []
    createPluginInstance := fun _ _ _ => none }

/-- Generations 1.0 final to 2.0 final, both time-stretch flags. -/
def factory20 : ARAFactory :=
  { lowestSupportedApiGeneration := 2
    highestSupportedApiGeneration := 4
    supportedPlaybackTransformationFlags := 3 }

/-- Generation 1.0 draft only, both time-stretch flags. -/
def factory10Draft : ARAFactory :=
  { lowestSupportedApiGeneration := 1
    highestSupportedApiGeneration := 1
    supportedPlaybackTransformationFlags := 3 }

/-- Time-stretch without the tempo-reflecting flag. -/
def factoryNoTempo : ARAFactory :=
  { lowestSupportedApiGeneration := 2
    highestSupportedApiGeneration := 4
    supportedPlaybackTransformationFlags := 1 }

/-- A factory whose lowest generation is beyond 2.0 final. -/
def factoryFuture : ARAFactory :=
  { lowestSupportedApiGeneration := 5
    highestSupportedApiGeneration := 6
    supportedPlaybackTransformationFlags := 3 }

def enabledSentinel : MelodyneInstanceFactory :=
  { factory := some factory20, plugin := some (instanceWith factory20) }

def disabledSentinel : MelodyneInstanceFactory := { factory := none, plugin := none }

def target : ExternalPlugin := { audioPluginInstance := some (instanceWith factory20) }

def legacyTarget : ExternalPlugin := { audioPluginInstance := some (legacyInstance factory20) }

/-- A target whose component exposes neither entry point. -/
def bareTarget : ExternalPlugin :=
  { audioPluginInstance := some
      { pluginDescription := melodyneDesc
        platformSpecificData := some
          { queryIPlugInEntryPoint := none, queryIPlugInEntryPoint2 := none } } }

/-- A target whose ARA2 entry point answers every binding request with a null
handle. -/
def refusingTarget : ExternalPlugin :=
  { audioPluginInstance := some
      { pluginDescription := melodyneDesc
        platformSpecificData := some
          { queryIPlugInEntryPoint := some (entryPoint factory20)
            queryIPlugInEntryPoint2 := some
              { bindToDocumentControllerWithRoles := fun _ _ _ => none } } } }

/-- A target without an audio plugin instance. -/
def emptyTarget : ExternalPlugin := { audioPluginInstance := none }

end Sample

/-! ## Discovery: what the loop returns and what it tries -/

theorem createMelodynePluginFor_fst (E : Engine) (fmt : String) (ds : List PluginDescription) :
    (createMelodynePluginFor E fmt ds).1
      = (ds.filter (fun pd => pd.pluginFormatName = fmt)).findSome?
          (fun pd => E.createPluginInstance pd 44100 512) := by
  induction ds with
  | nil => rfl
  | cons pd rest ih =>
    by_cases hf : pd.pluginFormatName = fmt
    · cases hc : E.createPluginInstance pd 44100 512 with
      | none => simp [createMelodynePluginFor, hf, hc, ih, List.findSome?]
      | some p => simp [createMelodynePluginFor, hf, hc, List.findSome?]
    · simp [createMelodynePluginFor, hf, ih]

theorem createMelodynePluginFor_snd (E : Engine) (fmt : String) (ds : List PluginDescription) :
    (createMelodynePluginFor E fmt ds).2
      = (((ds.filter (fun pd => pd.pluginFormatName = fmt)).takeWhile
            (fun pd => (E.createPluginInstance pd 44100 512).isNone)
          ++ ((ds.filter (fun pd => pd.pluginFormatName = fmt)).dropWhile
            (fun pd => (E.createPluginInstance pd 44100 512).isNone)).take 1).map
          (fun pd => Event.createPluginInstance pd 44100 512)) := by
  induction ds with
  | nil => rfl
  | cons pd rest ih =>
    by_cases hf : pd.pluginFormatName = fmt
    · cases hc : E.createPluginInstance pd 44100 512 with
      | none =>
        simp [createMelodynePluginFor, hf, hc, ih, List.takeWhile, List.dropWhile]
      | some p =>
        simp [createMelodynePluginFor, hf, hc, List.takeWhile, List.dropWhile]
    · simp [createMelodynePluginFor, hf, ih]

theorem createMelodynePlugin_fst (E : Engine) :
    (createMelodynePlugin E).1
      = (vst3Descriptions E).findSome? (fun pd => E.createPluginInstance pd 44100 512) := by
  unfold createMelodynePlugin vst3Descriptions
  rw [← createMelodynePluginFor_fst]
  cases h : (createMelodynePluginFor E "VST3" E.getARACompatiblePlugDescriptions).1 <;> simp [h]

theorem createMelodynePlugin_snd (E : Engine) :
    (createMelodynePlugin E).2
      = Event.getARACompatiblePlugDescriptions ::
          (createMelodynePluginFor E "VST3" E.getARACompatiblePlugDescriptions).2 := by
  unfold createMelodynePlugin
  cases h : (createMelodynePluginFor E "VST3" E.getARACompatiblePlugDescriptions).1 <;> simp [h]

/-! ## Factory negotiation and construction -/

theorem getFactoryVST3_trace (s : MelodyneInstanceFactory) (c : Option ARAFactory) (t : Trace)
    (h : getFactoryVST3 s = .ok (c, t)) :
    ∀ e ∈ t, e.isInitializeARA = false ∧ e.isCreatePluginInstance = false := by
  unfold getFactoryVST3 at h
  cases hp : s.plugin with
  | none => simp [hp] at h
  | some pl =>
    simp only [hp] at h
    unfold getVST3EntryPoint at h
    cases hd : pl.platformSpecificData with
    | none =>
      simp [hd] at h
      obtain ⟨-, rfl⟩ := h
      simp
    | some comp =>
      cases hq : comp.queryIPlugInEntryPoint with
      | none =>
        simp [hd, hq] at h
        obtain ⟨-, rfl⟩ := h
        simp [Event.isInitializeARA, Event.isCreatePluginInstance]
      | some ep =>
        simp [hd, hq] at h
        obtain ⟨-, rfl⟩ := h
        simp [Event.isInitializeARA, Event.isCreatePluginInstance]

/-- What `getFactoryForPlugin` leaves when the sentinel plugin is a VST3
instance and `getFactoryVST3` returned `c`. -/
theorem getFactoryForPlugin_vst3 (K : ARAConstants) (s : MelodyneInstanceFactory)
    (pl : AudioPluginInstance) (c : Option ARAFactory) (t : Trace)
    (hp : s.plugin = some pl) (hv : pl.pluginDescription.pluginFormatName = "VST3")
    (hf : getFactoryVST3 s = .ok (c, t)) :
    getFactoryForPlugin K s
      = .ok ({ factory := c.bind (fun f =>
                 if f.lowestSupportedApiGeneration > K.kARAAPIGeneration_2_0_Final then none
                 else some f),
               plugin := some pl }, t) := by
  unfold getFactoryForPlugin
  cases c with
  | none => simp [hp, hv, hf]
  | some f =>
    by_cases hl : f.lowestSupportedApiGeneration > K.kARAAPIGeneration_2_0_Final
    · simp [hp, hv, hf, hl]
    · simp [hp, hv, hf, hl]

theorem getFactoryForPlugin_not_vst3 (K : ARAConstants) (pl : AudioPluginInstance)
    (hv : pl.pluginDescription.pluginFormatName ≠ "VST3") :
    getFactoryForPlugin K { factory := none, plugin := some pl }
      = .ok ({ factory := none, plugin := some pl }, []) := by
  unfold getFactoryForPlugin
  simp [hv]

theorem getFactoryVST3_total (fac : Option ARAFactory) (pl : AudioPluginInstance) :
    ∃ c t, getFactoryVST3 { factory := fac, plugin := some pl } = .ok (c, t) := by
  unfold getFactoryVST3
  cases h : (getVST3EntryPoint pl).1 with
  | none => exact ⟨none, (getVST3EntryPoint pl).2, by simp [h]⟩
  | some ep =>
    exact ⟨ep.getFactory, (getVST3EntryPoint pl).2 ++ [Event.getFactory], by simp [h]⟩

theorem construct_no_plugin (K : ARAConstants) (B : Build) (E : Engine)
    (hc : (createMelodynePlugin E).1 = none) :
    MelodyneInstanceFactory.construct K B E
      = .ok ({ factory := none, plugin := none }, (createMelodynePlugin E).2) := by
  unfold MelodyneInstanceFactory.construct
  simp [hc]

theorem construct_no_factory (K : ARAConstants) (B : Build) (E : Engine)
    (pl : AudioPluginInstance) (s1 : MelodyneInstanceFactory) (t1 : Trace)
    (hc : (createMelodynePlugin E).1 = some pl)
    (hg : getFactoryForPlugin K { factory := none, plugin := some pl } = .ok (s1, t1))
    (hn : s1.factory = none) :
    MelodyneInstanceFactory.construct K B E
      = .ok ({ factory := none, plugin := none },
             (createMelodynePlugin E).2 ++ t1 ++ jassertfalse B ++ [Event.deletePluginInstance]) := by
  unfold MelodyneInstanceFactory.construct
  simp [hc, hg, hn]

theorem construct_unusable (K : ARAConstants) (B : Build) (E : Engine)
    (pl : AudioPluginInstance) (s1 : MelodyneInstanceFactory) (t1 : Trace) (f : ARAFactory)
    (hc : (createMelodynePlugin E).1 = some pl)
    (hg : getFactoryForPlugin K { factory := none, plugin := some pl } = .ok (s1, t1))
    (hs : s1.factory = some f) (hu : canBeUsedAsTimeStretchEngine K f = false) :
    MelodyneInstanceFactory.construct K B E
      = .ok ({ factory := none, plugin := none },
             (createMelodynePlugin E).2 ++ t1
               ++ [Event.logError "ARA-compatible plugin could not be used for time-stretching!"]
               ++ jassertfalse B ++ [Event.deletePluginInstance]) := by
  unfold MelodyneInstanceFactory.construct
  simp [hc, hg, hs, hu]

theorem construct_accepted (K : ARAConstants) (B : Build) (E : Engine)
    (pl : AudioPluginInstance) (s1 : MelodyneInstanceFactory) (t1 : Trace) (f : ARAFactory)
    (hc : (createMelodynePlugin E).1 = some pl)
    (hg : getFactoryForPlugin K { factory := none, plugin := some pl } = .ok (s1, t1))
    (hs : s1.factory = some f) (hu : canBeUsedAsTimeStretchEngine K f = true) :
    MelodyneInstanceFactory.construct K B E
      = .ok (s1, (createMelodynePlugin E).2 ++ t1
          ++ [Event.initializeARAWithConfiguration f
                { structSize := K.kARAInterfaceConfigurationMinSize
                  desiredApiGeneration :=
                    if f.highestSupportedApiGeneration ≥ K.kARAAPIGeneration_2_0_Draft then
                      K.kARAAPIGeneration_2_0_Draft
                    else K.kARAAPIGeneration_1_0_Final
                  assertFunctionAddress := B.JUCE_LOG_ASSERTIONS || B.JUCE_DEBUG }]) := by
  unfold MelodyneInstanceFactory.construct
  simp [hc, hg, hs, hu]

theorem createMelodynePlugin_trace (E : Engine) :
    ∀ e ∈ (createMelodynePlugin E).2, e.isInitializeARA = false := by
  rw [createMelodynePlugin_snd, createMelodynePluginFor_snd]
  intro e he
  simp only [List.mem_cons, List.mem_map] at he
  rcases he with rfl | ⟨pd, -, rfl⟩ <;> rfl

theorem jassertfalse_trace (B : Build) :
    ∀ e ∈ jassertfalse B, e = Event.jassertfalse := by
  unfold jassertfalse
  intro e he
  split at he <;> simp_all

/-- What `getFactoryForPlugin` returns in the constructor: it never fails, it
keeps the plugin, it makes no initialisation call, and a factory it keeps
comes from a VST3 instance and passed the generation test. -/
theorem getFactoryForPlugin_total (K : ARAConstants) (pl : AudioPluginInstance) :
    ∃ c t, getFactoryForPlugin K { factory := none, plugin := some pl }
        = .ok ({ factory := c, plugin := some pl }, t)
      ∧ (∀ e ∈ t, e.isInitializeARA = false)
      ∧ (∀ f, c = some f → pl.pluginDescription.pluginFormatName = "VST3"
          ∧ f.lowestSupportedApiGeneration ≤ K.kARAAPIGeneration_2_0_Final) := by
  by_cases hv : pl.pluginDescription.pluginFormatName = "VST3"
  · obtain ⟨c, t, hf⟩ := getFactoryVST3_total none pl
    refine ⟨_, t, getFactoryForPlugin_vst3 K _ pl c t rfl hv hf, ?_, ?_⟩
    · intro e he
      exact (getFactoryVST3_trace _ c t hf e he).1
    · intro f hk
      refine ⟨hv, ?_⟩
      cases c with
      | none => simp at hk
      | some g =>
        by_cases hl : g.lowestSupportedApiGeneration > K.kARAAPIGeneration_2_0_Final
        · simp [hl] at hk
        · simp [hl] at hk
          subst hk
          exact not_lt.mp hl
  · exact ⟨none, [], getFactoryForPlugin_not_vst3 K pl hv, by simp, by simp⟩

/-- The constructor always completes. Either it leaves the sentinel disabled and
made no initialisation call, or it leaves an accepted factory next to a VST3
instance, and its last call initialised that factory. -/
theorem construct_total (K : ARAConstants) (B : Build) (E : Engine) :
    ∃ s t, MelodyneInstanceFactory.construct K B E = .ok (s, t)
      ∧ ((s.factory = none ∧ s.plugin = none ∧ ∀ e ∈ t, e.isInitializeARA = false)
        ∨ ∃ f pl t1, s = { factory := some f, plugin := some pl }
            ∧ pl.pluginDescription.pluginFormatName = "VST3"
            ∧ canBeUsedAsTimeStretchEngine K f = true
            ∧ f.lowestSupportedApiGeneration ≤ K.kARAAPIGeneration_2_0_Final
            ∧ (∀ e ∈ t1, e.isInitializeARA = false)
            ∧ t = t1 ++ [Event.initializeARAWithConfiguration f
                { structSize := K.kARAInterfaceConfigurationMinSize
                  desiredApiGeneration :=
                    if f.highestSupportedApiGeneration ≥ K.kARAAPIGeneration_2_0_Draft then
                      K.kARAAPIGeneration_2_0_Draft
                    else K.kARAAPIGeneration_1_0_Final
                  assertFunctionAddress := B.JUCE_LOG_ASSERTIONS || B.JUCE_DEBUG }]) := by
  cases hc : (createMelodynePlugin E).1 with
  | none =>
    refine ⟨_, _, construct_no_plugin K B E hc, Or.inl ⟨rfl, rfl, createMelodynePlugin_trace E⟩⟩
  | some pl =>
    obtain ⟨c, t1, hg, ht1, hkept⟩ := getFactoryForPlugin_total K pl
    cases c with
    | none =>
      refine ⟨_, _, construct_no_factory K B E pl _ t1 hc hg rfl, Or.inl ⟨rfl, rfl, ?_⟩⟩
      intro e he
      simp only [List.mem_append, List.mem_singleton] at he
      rcases he with ((he | he) | he) | he
      · exact createMelodynePlugin_trace E e he
      · exact ht1 e he
      · rw [jassertfalse_trace B e he]; rfl
      · rw [he]; rfl
    | some f =>
      cases hu : canBeUsedAsTimeStretchEngine K f with
      | false =>
        refine ⟨_, _, construct_unusable K B E pl _ t1 f hc hg rfl hu, Or.inl ⟨rfl, rfl, ?_⟩⟩
        intro e he
        simp only [List.mem_append, List.mem_singleton] at he
        rcases he with (((he | he) | he) | he) | he
        · exact createMelodynePlugin_trace E e he
        · exact ht1 e he
        · rw [he]; rfl
        · rw [jassertfalse_trace B e he]; rfl
        · rw [he]; rfl
      | true =>
        refine ⟨_, _, construct_accepted K B E pl _ t1 f hc hg rfl hu, Or.inr
          ⟨f, pl, (createMelodynePlugin E).2 ++ t1, rfl, (hkept f rfl).1, hu, (hkept f rfl).2,
            ?_, rfl⟩⟩
        intro e he
        simp only [List.mem_append] at he
        rcases he with he | he
        · exact createMelodynePlugin_trace E e he
        · exact ht1 e he

theorem canBeUsedAsTimeStretchEngine_iff (K : ARAConstants) (g : ARAFactory) :
    canBeUsedAsTimeStretchEngine K g = true
      ↔ g.supportedPlaybackTransformationFlags &&& K.kARAPlaybackTransformationTimestretch ≠ 0
        ∧ g.supportedPlaybackTransformationFlags
            &&& K.kARAPlaybackTransformationTimestretchReflectingTempo ≠ 0 := by
  simp [canBeUsedAsTimeStretchEngine]

theorem filter_isInitializeARA_append_singleton (t1 : Trace) (e : Event)
    (h1 : ∀ x ∈ t1, x.isInitializeARA = false) (he : e.isInitializeARA = true) :
    (t1 ++ [e]).filter Event.isInitializeARA = [e] := by
  rw [List.filter_append, List.filter_eq_nil_iff.mpr (fun x hx => by simp [h1 x hx])]
  simp [List.filter, he]

/-! ## Properties of discovery and construction -/

/-- C5: `canBeUsedAsTimeStretchEngine` holds exactly when both time-stretch bits
are set, and a factory lacking either bit is never made the active factory by
the constructor nor initialised by it; when it is the factory obtained from the
instantiated plugin, the constructor leaves `factory == nullptr` and
`plugin == nullptr` and calls `initializeARAWithConfiguration` on nothing. -/
theorem C5_unusable_factory_never_active (K : ARAConstants) (B : Build) (E : Engine)
    (f : ARAFactory)
    (hflags :
      f.supportedPlaybackTransformationFlags &&& K.kARAPlaybackTransformationTimestretch = 0
      ∨ f.supportedPlaybackTransformationFlags
          &&& K.kARAPlaybackTransformationTimestretchReflectingTempo = 0) :
    (∀ g, canBeUsedAsTimeStretchEngine K g = true
        ↔ g.supportedPlaybackTransformationFlags &&& K.kARAPlaybackTransformationTimestretch ≠ 0
          ∧ g.supportedPlaybackTransformationFlags
              &&& K.kARAPlaybackTransformationTimestretchReflectingTempo ≠ 0)
    ∧ canBeUsedAsTimeStretchEngine K f = false
    ∧ ∃ s t, MelodyneInstanceFactory.construct K B E = .ok (s, t)
        ∧ s.factory ≠ some f
        ∧ (∀ cfg, Event.initializeARAWithConfiguration f cfg ∉ t)
        ∧ ∀ pl t1, (createMelodynePlugin E).1 = some pl
            → pl.pluginDescription.pluginFormatName = "VST3"
            → getFactoryVST3 { factory := none, plugin := some pl } = .ok (some f, t1)
            → s.factory = none ∧ s.plugin = none ∧ ∀ e ∈ t, e.isInitializeARA = false := by
  have hu : canBeUsedAsTimeStretchEngine K f = false := by
    cases h : canBeUsedAsTimeStretchEngine K f with
    | false => rfl
    | true =>
      have := (canBeUsedAsTimeStretchEngine_iff K f).mp h
      rcases hflags with h0 | h0
      · exact absurd h0 this.1
      · exact absurd h0 this.2
  refine ⟨canBeUsedAsTimeStretchEngine_iff K, hu, ?_⟩
  obtain ⟨s, t, hst, hcase⟩ := construct_total K B E
  refine ⟨s, t, hst, ?_, ?_, ?_⟩
  · rcases hcase with ⟨hn, -, -⟩ | ⟨g, pl, t1, rfl, -, hg, -, -, -⟩
    · simp [hn]
    · intro h
      simp only [Option.some.injEq] at h
      subst h
      simp [hu] at hg
  · intro cfg hmem
    rcases hcase with ⟨-, -, hno⟩ | ⟨g, pl, t1, -, -, hg, -, hno, rfl⟩
    · simpa [Event.isInitializeARA] using hno _ hmem
    · simp only [List.mem_append, List.mem_singleton] at hmem
      rcases hmem with hmem | hmem
      · simpa [Event.isInitializeARA] using hno _ hmem
      · injection hmem with h1 h2
        subst h1
        simp [hu] at hg
  · intro pl t1 hc hv hf
    have hg := getFactoryForPlugin_vst3 K _ pl (some f) t1 rfl hv hf
    rcases hcase with ⟨hn, hp, hno⟩ | ⟨g, pl2, t2, rfl, -, hg2, -, -, -⟩
    · exact ⟨hn, hp, hno⟩
    · exfalso
      by_cases hl : f.lowestSupportedApiGeneration > K.kARAAPIGeneration_2_0_Final
      · simp only [Option.some_bind, if_pos hl] at hg
        have := construct_no_factory K B E pl _ t1 hc hg rfl
        rw [this] at hst
        simp at hst
      · simp only [Option.some_bind, if_neg hl] at hg
        have := construct_unusable K B E pl _ t1 f hc hg rfl hu
        rw [this] at hst
        simp at hst

/-- C5 at a concrete input: a VST3 plugin whose only factory has the time-stretch
bit but not the tempo-reflecting bit leaves the sentinel disabled, with no
initialisation call. -/
theorem C5_unusable_factory_never_active_witness :
    (Sample.factoryNoTempo.supportedPlaybackTransformationFlags
        &&& araSDK.kARAPlaybackTransformationTimestretchReflectingTempo = 0)
    ∧ ∃ s t, MelodyneInstanceFactory.construct araSDK Sample.debugBuild
          (Sample.engineWith Sample.factoryNoTempo) = .ok (s, t)
        ∧ s.factory = none ∧ s.plugin = none ∧ ∀ e ∈ t, e.isInitializeARA = false := by
  refine ⟨by decide, ?_⟩
  obtain ⟨-, -, s, t, hst, -, -, h⟩ :=
    C5_unusable_factory_never_active araSDK Sample.debugBuild
      (Sample.engineWith Sample.factoryNoTempo) Sample.factoryNoTempo (Or.inr (by decide))
  exact ⟨s, t, hst, h (Sample.instanceWith Sample.factoryNoTempo)
    [Event.queryInterface InterfaceId.IPlugInEntryPoint, Event.getFactory] rfl rfl rfl⟩

/-- C6, as the code has it: for every accepted factory the constructor makes
exactly one `initializeARAWithConfiguration` call, on that factory, and the
generation it passes is `kARAAPIGeneration_2_0_Draft` when
`highestSupportedApiGeneration >= kARAAPIGeneration_2_0_Draft` and
`kARAAPIGeneration_1_0_Final` otherwise. With the SDK's ordering of the
generations it never exceeds 2.0 draft (hence 2.0 final), it does not exceed
the declared highest generation when that is at least 1.0 final, and it is
`min (highest, kARAAPIGeneration_2_0_Final)` exactly when the declared highest
generation is 1.0 final or 2.0 draft. -/
theorem C6_negotiated_generation (K : ARAConstants) (B : Build) (E : Engine)
    (s : MelodyneInstanceFactory) (t : Trace) (f : ARAFactory)
    (hK : K.kARAAPIGeneration_1_0_Final < K.kARAAPIGeneration_2_0_Draft
      ∧ K.kARAAPIGeneration_2_0_Draft < K.kARAAPIGeneration_2_0_Final)
    (hst : MelodyneInstanceFactory.construct K B E = .ok (s, t))
    (hf : s.factory = some f) :
    ∃ gen, t.filter Event.isInitializeARA
        = [Event.initializeARAWithConfiguration f
            { structSize := K.kARAInterfaceConfigurationMinSize
              desiredApiGeneration := gen
              assertFunctionAddress := B.JUCE_LOG_ASSERTIONS || B.JUCE_DEBUG }]
      ∧ gen = (if f.highestSupportedApiGeneration ≥ K.kARAAPIGeneration_2_0_Draft then
                K.kARAAPIGeneration_2_0_Draft
               else K.kARAAPIGeneration_1_0_Final)
      ∧ gen ≤ K.kARAAPIGeneration_2_0_Draft
      ∧ gen ≤ K.kARAAPIGeneration_2_0_Final
      ∧ (K.kARAAPIGeneration_1_0_Final ≤ f.highestSupportedApiGeneration
          → gen ≤ f.highestSupportedApiGeneration)
      ∧ (gen = min f.highestSupportedApiGeneration K.kARAAPIGeneration_2_0_Final
          ↔ f.highestSupportedApiGeneration = K.kARAAPIGeneration_1_0_Final
            ∨ f.highestSupportedApiGeneration = K.kARAAPIGeneration_2_0_Draft) := by
  obtain ⟨s2, t2, hst2, hcase⟩ := construct_total K B E
  rw [hst] at hst2
  simp only [Except.ok.injEq, Prod.mk.injEq] at hst2
  obtain ⟨rfl, rfl⟩ := hst2
  rcases hcase with ⟨hn, -, -⟩ | ⟨g, pl, t1, rfl, -, -, -, hno, rfl⟩
  · rw [hn] at hf
    exact absurd hf (by simp)
  · simp only [Option.some.injEq] at hf
    subst hf
    refine ⟨_, filter_isInitializeARA_append_singleton t1 _ hno rfl, rfl, ?_, ?_, ?_, ?_⟩
    · split <;> omega
    · split <;> omega
    · intro h1
      split <;> omega
    · split
      · rw [min_def]
        split <;> constructor <;> intro h <;> omega
      · rw [min_def]
        split <;> constructor <;> intro h <;> omega

/-- C6 at a concrete input: the factory declaring generations 1.0 final to 2.0
final is initialised once, at generation 3 (2.0 draft). -/
theorem C6_negotiated_generation_witness :
    ∃ gen, ([Event.getARACompatiblePlugDescriptions,
          Event.createPluginInstance Sample.brokenDesc 44100 512,
          Event.createPluginInstance Sample.melodyneDesc 44100 512,
          Event.queryInterface InterfaceId.IPlugInEntryPoint,
          Event.getFactory,
          Event.initializeARAWithConfiguration Sample.factory20
            { structSize := 24, desiredApiGeneration := 3, assertFunctionAddress := false }]
          : Trace).filter Event.isInitializeARA
        = [Event.initializeARAWithConfiguration Sample.factory20
            { structSize := 24, desiredApiGeneration := gen, assertFunctionAddress := false }]
      ∧ gen = 3 := by
  obtain ⟨gen, h1, h2, -⟩ :=
    C6_negotiated_generation araSDK Sample.releaseBuild (Sample.engineWith Sample.factory20)
      Sample.enabledSentinel _ Sample.factory20 (by decide) rfl rfl
  exact ⟨gen, h1, by rw [h2]; decide⟩

/-- C6 fails as stated: a factory whose highest generation is 2.0 final (4) is
accepted and initialised at generation 3 (2.0 draft), not at
`min (4, kARAAPIGeneration_2_0_Final) = 4`; and a factory whose highest
generation is 1.0 draft (1) is accepted and initialised at generation 2
(1.0 final), above the highest generation it declares. -/
theorem C6_counterexample :
    (MelodyneInstanceFactory.construct araSDK Sample.releaseBuild
        (Sample.engineWith Sample.factory20)
      = .ok ({ factory := some Sample.factory20,
               plugin := some (Sample.instanceWith Sample.factory20) },
          [Event.getARACompatiblePlugDescriptions,
           Event.createPluginInstance Sample.brokenDesc 44100 512,
           Event.createPluginInstance Sample.melodyneDesc 44100 512,
           Event.queryInterface InterfaceId.IPlugInEntryPoint,
           Event.getFactory,
           Event.initializeARAWithConfiguration Sample.factory20
             { structSize := 24, desiredApiGeneration := 3, assertFunctionAddress := false }])
      ∧ (3 : Int) ≠ min Sample.factory20.highestSupportedApiGeneration
                      araSDK.kARAAPIGeneration_2_0_Final)
    ∧ (MelodyneInstanceFactory.construct araSDK Sample.releaseBuild
        (Sample.engineWith Sample.factory10Draft)
      = .ok ({ factory := some Sample.factory10Draft,
               plugin := some (Sample.instanceWith Sample.factory10Draft) },
          [Event.getARACompatiblePlugDescriptions,
           Event.createPluginInstance Sample.brokenDesc 44100 512,
           Event.createPluginInstance Sample.melodyneDesc 44100 512,
           Event.queryInterface InterfaceId.IPlugInEntryPoint,
           Event.getFactory,
           Event.initializeARAWithConfiguration Sample.factory10Draft
             { structSize := 24, desiredApiGeneration := 2, assertFunctionAddress := false }])
      ∧ ¬ ((2 : Int) ≤ Sample.factory10Draft.highestSupportedApiGeneration)) := by
  refine ⟨⟨rfl, by decide⟩, ⟨rfl, by decide⟩⟩

/-- C9: when the sentinel plugin is a VST3 instance whose entry point hands out
the factory `f`, `getFactoryForPlugin` keeps `f` if and only if
`f.lowestSupportedApiGeneration <= kARAAPIGeneration_2_0_Final` and sets
`factory` to `nullptr` otherwise, leaving the plugin in place; and when it
rejects `f`, the constructor deletes the plugin instance, leaves both members
null and never calls `initializeARAWithConfiguration`. -/
theorem C9_lowest_generation_gate (K : ARAConstants) (B : Build) (E : Engine)
    (pl : AudioPluginInstance) (f : ARAFactory) (t1 : Trace)
    (hc : (createMelodynePlugin E).1 = some pl)
    (hv : pl.pluginDescription.pluginFormatName = "VST3")
    (hf : getFactoryVST3 { factory := none, plugin := some pl } = .ok (some f, t1)) :
    (∃ s1, getFactoryForPlugin K { factory := none, plugin := some pl } = .ok (s1, t1)
        ∧ s1.plugin = some pl
        ∧ (s1.factory = some f
            ↔ f.lowestSupportedApiGeneration ≤ K.kARAAPIGeneration_2_0_Final)
        ∧ (s1.factory = none
            ↔ K.kARAAPIGeneration_2_0_Final < f.lowestSupportedApiGeneration))
    ∧ (K.kARAAPIGeneration_2_0_Final < f.lowestSupportedApiGeneration
        → ∃ t, MelodyneInstanceFactory.construct K B E
              = .ok ({ factory := none, plugin := none }, t)
            ∧ (∀ e ∈ t, e.isInitializeARA = false)
            ∧ Event.deletePluginInstance ∈ t) := by
  have hg := getFactoryForPlugin_vst3 K _ pl (some f) t1 rfl hv hf
  constructor
  · refine ⟨_, hg, rfl, ?_, ?_⟩
    · by_cases hl : f.lowestSupportedApiGeneration > K.kARAAPIGeneration_2_0_Final
      · simp only [Option.some_bind, if_pos hl]
        exact ⟨fun h => absurd h (by simp), fun h => absurd hl (not_lt.mpr h)⟩
      · simp only [Option.some_bind, if_neg hl]
        exact ⟨fun _ => not_lt.mp hl, fun _ => trivial⟩
    · by_cases hl : f.lowestSupportedApiGeneration > K.kARAAPIGeneration_2_0_Final
      · simp only [Option.some_bind, if_pos hl]
        exact ⟨fun _ => hl, fun _ => trivial⟩
      · simp only [Option.some_bind, if_neg hl]
        exact ⟨fun h => absurd h (by simp), fun h => absurd h hl⟩
  · intro hl
    have hl2 : f.lowestSupportedApiGeneration > K.kARAAPIGeneration_2_0_Final := hl
    simp only [Option.some_bind, if_pos hl2] at hg
    refine ⟨_, construct_no_factory K B E pl _ t1 hc hg rfl, ?_, by simp⟩
    intro e he
    simp only [List.mem_append, List.mem_singleton] at he
    rcases he with ((he | he) | he) | he
    · exact createMelodynePlugin_trace E e he
    · exact (getFactoryVST3_trace _ _ t1 hf e he).1
    · rw [jassertfalse_trace B e he]; rfl
    · rw [he]; rfl

/-- C9 at a concrete input: a factory whose lowest generation is 5 is rejected
and the sentinel ends disabled without an initialisation call. -/
theorem C9_lowest_generation_gate_witness :
    araSDK.kARAAPIGeneration_2_0_Final < Sample.factoryFuture.lowestSupportedApiGeneration
    ∧ ∃ t, MelodyneInstanceFactory.construct araSDK Sample.debugBuild
          (Sample.engineWith Sample.factoryFuture)
          = .ok ({ factory := none, plugin := none }, t)
        ∧ (∀ e ∈ t, e.isInitializeARA = false)
        ∧ Event.deletePluginInstance ∈ t :=
  ⟨by decide,
   (C9_lowest_generation_gate araSDK Sample.debugBuild (Sample.engineWith Sample.factoryFuture)
      (Sample.instanceWith Sample.factoryFuture) Sample.factoryFuture
      [Event.queryInterface InterfaceId.IPlugInEntryPoint, Event.getFactory]
      rfl rfl rfl).2 (by decide)⟩

/-- C10: `createMelodynePlugin()` asks the plugin manager for the descriptors
once, then tries `createPluginInstance (pd, 44100, 512)` on the descriptors
whose `pluginFormatName` is "VST3" only, in list order, up to and including the
first one that instantiates, whose instance it returns; it returns nothing if
and only if no VST3 descriptor instantiates, and then the constructor leaves
`plugin == nullptr` and `factory == nullptr`. -/
theorem C10_discovery_order (K : ARAConstants) (B : Build) (E : Engine) :
    (createMelodynePlugin E).1
      = (vst3Descriptions E).findSome? (fun pd => E.createPluginInstance pd 44100 512)
    ∧ (createMelodynePlugin E).2
      = Event.getARACompatiblePlugDescriptions ::
          (((vst3Descriptions E).takeWhile
                (fun pd => (E.createPluginInstance pd 44100 512).isNone)
              ++ ((vst3Descriptions E).dropWhile
                (fun pd => (E.createPluginInstance pd 44100 512).isNone)).take 1).map
            (fun pd => Event.createPluginInstance pd 44100 512))
    ∧ ((createMelodynePlugin E).1 = none
        ↔ ∀ pd ∈ vst3Descriptions E, E.createPluginInstance pd 44100 512 = none)
    ∧ ((createMelodynePlugin E).1 = none
        → MelodyneInstanceFactory.construct K B E
            = .ok ({ factory := none, plugin := none }, (createMelodynePlugin E).2)) := by
  refine ⟨createMelodynePlugin_fst E, ?_, ?_, construct_no_plugin K B E⟩
  · rw [createMelodynePlugin_snd, createMelodynePluginFor_snd]
    rfl
  · rw [createMelodynePlugin_fst, List.findSome?_eq_none_iff]

/-- Discovery on a list with an AudioUnit descriptor, a VST3 descriptor that
fails to instantiate and a VST3 descriptor that instantiates: the AudioUnit one
is skipped and the two VST3 ones are tried in order. -/
theorem createMelodynePlugin_sample :
    (createMelodynePlugin (Sample.engineWith Sample.factory20)).2
      = [Event.getARACompatiblePlugDescriptions,
         Event.createPluginInstance Sample.brokenDesc 44100 512,
         Event.createPluginInstance Sample.melodyneDesc 44100 512] := rfl

/-! ## Binding -/

theorem getVST3EntryPoint_bindingResults (pl : AudioPluginInstance) :
    bindingResults (getVST3EntryPoint pl).2 = []
      ∧ (getVST3EntryPoint pl).2.filter Event.isBinding = [] := by
  unfold getVST3EntryPoint
  cases pl.platformSpecificData <;> exact ⟨rfl, rfl⟩

theorem getVST3EntryPoint2_bindingResults (pl : AudioPluginInstance) :
    bindingResults (getVST3EntryPoint2 pl).2 = []
      ∧ (getVST3EntryPoint2 pl).2.filter Event.isBinding = [] := by
  unfold getVST3EntryPoint2
  cases pl.platformSpecificData <;> exact ⟨rfl, rfl⟩

theorem bindingResults_append (t1 t2 : Trace) :
    bindingResults (t1 ++ t2) = bindingResults t1 ++ bindingResults t2 := by
  induction t1 with
  | nil => rfl
  | cons e t ih => cases e <;> simp [bindingResults, ih]

/-- The three paths of `setExtensionInstanceVST3` on a target that has an audio
plugin instance. -/
theorem setExtensionInstanceVST3_eq (K : ARAConstants) (w : MelodyneInstance)
    (dcRef : ARADocumentControllerRef) (pl : AudioPluginInstance)
    (hpl : w.plugin.audioPluginInstance = some pl) :
    (∀ ep2, (getVST3EntryPoint2 pl).1 = some ep2 →
      setExtensionInstanceVST3 K w dcRef
        = ((ep2.bindToDocumentControllerWithRoles dcRef (allRoles K) (allRoles K)).isSome,
           { plugin := w.plugin, factory := w.factory,
             extensionInstance :=
               ep2.bindToDocumentControllerWithRoles dcRef (allRoles K) (allRoles K) },
           (getVST3EntryPoint pl).2 ++ (getVST3EntryPoint2 pl).2
            ++ [Event.bindToDocumentControllerWithRoles dcRef (allRoles K) (allRoles K)
                  (ep2.bindToDocumentControllerWithRoles dcRef (allRoles K) (allRoles K))]))
    ∧ (∀ ep, (getVST3EntryPoint2 pl).1 = none → (getVST3EntryPoint pl).1 = some ep →
      setExtensionInstanceVST3 K w dcRef
        = ((ep.bindToDocumentController dcRef).isSome,
           { plugin := w.plugin, factory := w.factory,
             extensionInstance := ep.bindToDocumentController dcRef },
           (getVST3EntryPoint pl).2 ++ (getVST3EntryPoint2 pl).2
            ++ [Event.bindToDocumentController dcRef (ep.bindToDocumentController dcRef)]))
    ∧ ((getVST3EntryPoint2 pl).1 = none → (getVST3EntryPoint pl).1 = none →
      setExtensionInstanceVST3 K w dcRef
        = (w.extensionInstance.isSome, w,
           (getVST3EntryPoint pl).2 ++ (getVST3EntryPoint2 pl).2)) := by
  refine ⟨?_, ?_, ?_⟩
  · intro ep2 h2
    unfold setExtensionInstanceVST3
    simp [hpl, h2]
  · intro ep h2 h1
    unfold setExtensionInstanceVST3
    simp [hpl, h2, h1]
  · intro h2 h1
    unfold setExtensionInstanceVST3
    simp [hpl, h2, h1]

theorem setExtensionInstanceVST3_no_instance (K : ARAConstants) (w : MelodyneInstance)
    (dcRef : ARADocumentControllerRef) (hpl : w.plugin.audioPluginInstance = none) :
    setExtensionInstanceVST3 K w dcRef = (w.extensionInstance.isSome, w, []) := by
  unfold setExtensionInstanceVST3
  simp [hpl]

/-- `setExtensionInstanceVST3` on an instance whose handle is still null: it
touches only the handle, reports whether the handle is now non-null, and the
handle is what its single binding call returned (or null after no call). -/
theorem setExtensionInstanceVST3_spec (K : ARAConstants) (w : MelodyneInstance)
    (dcRef : ARADocumentControllerRef) (hw : w.extensionInstance = none) :
    (setExtensionInstanceVST3 K w dcRef).2.1.plugin = w.plugin
    ∧ (setExtensionInstanceVST3 K w dcRef).2.1.factory = w.factory
    ∧ (setExtensionInstanceVST3 K w dcRef).1
        = (setExtensionInstanceVST3 K w dcRef).2.1.extensionInstance.isSome
    ∧ ((bindingResults (setExtensionInstanceVST3 K w dcRef).2.2 = []
          ∧ (setExtensionInstanceVST3 K w dcRef).2.1.extensionInstance = none)
        ∨ bindingResults (setExtensionInstanceVST3 K w dcRef).2.2
            = [(setExtensionInstanceVST3 K w dcRef).2.1.extensionInstance]) := by
  cases hpl : w.plugin.audioPluginInstance with
  | none =>
    rw [setExtensionInstanceVST3_no_instance K w dcRef hpl]
    exact ⟨rfl, rfl, rfl, Or.inl ⟨rfl, hw⟩⟩
  | some pl =>
    obtain ⟨h2, h1, h0⟩ := setExtensionInstanceVST3_eq K w dcRef pl hpl
    cases hq2 : (getVST3EntryPoint2 pl).1 with
    | some ep2 =>
      rw [h2 ep2 hq2]
      refine ⟨rfl, rfl, rfl, Or.inr ?_⟩
      simp [bindingResults_append, (getVST3EntryPoint_bindingResults pl).1,
        (getVST3EntryPoint2_bindingResults pl).1, bindingResults]
    | none =>
      cases hq1 : (getVST3EntryPoint pl).1 with
      | some ep =>
        rw [h1 ep hq2 hq1]
        refine ⟨rfl, rfl, rfl, Or.inr ?_⟩
        simp [bindingResults_append, (getVST3EntryPoint_bindingResults pl).1,
          (getVST3EntryPoint2_bindingResults pl).1, bindingResults]
      | none =>
        rw [h0 hq2 hq1]
        refine ⟨rfl, rfl, rfl, Or.inl ⟨?_, hw⟩⟩
        simp [bindingResults_append, (getVST3EntryPoint_bindingResults pl).1,
          (getVST3EntryPoint2_bindingResults pl).1]

/-- A sentinel the constructor left with a factory also has its plugin, a VST3
instance. -/
theorem enabled_sentinel_is_vst3 (K : ARAConstants) (B : Build) (E : Engine)
    (s : MelodyneInstanceFactory) (t : Trace)
    (hst : MelodyneInstanceFactory.construct K B E = .ok (s, t)) (hen : s.factory ≠ none) :
    ∃ pl, s.plugin = some pl ∧ pl.pluginDescription.pluginFormatName = "VST3" := by
  obtain ⟨s2, t2, hst2, hcase⟩ := construct_total K B E
  rw [hst] at hst2
  simp only [Except.ok.injEq, Prod.mk.injEq] at hst2
  obtain ⟨rfl, rfl⟩ := hst2
  rcases hcase with ⟨hn, -, -⟩ | ⟨g, pl, t1, rfl, hv, -, -, -, -⟩
  · exact absurd hn hen
  · exact ⟨pl, rfl, hv⟩

/-- `createInstance` on a sentinel holding a VST3 plugin, with a non-null
`dcRef`: it runs `setExtensionInstanceVST3` on the fresh instance. -/
theorem createInstance_enabled (K : ARAConstants) (B : Build) (s : MelodyneInstanceFactory)
    (pl : AudioPluginInstance) (p : ExternalPlugin) (dcRef : ARADocumentControllerRef)
    (hp : s.plugin = some pl) (hv : pl.pluginDescription.pluginFormatName = "VST3")
    (hdc : dcRef ≠ none) :
    createInstance K B s p dcRef
      = .ok (if (setExtensionInstanceVST3 K
                  { plugin := p, factory := s.factory, extensionInstance := none } dcRef).1
             then some (setExtensionInstanceVST3 K
                  { plugin := p, factory := s.factory, extensionInstance := none } dcRef).2.1
             else none,
             s,
             (setExtensionInstanceVST3 K
                  { plugin := p, factory := s.factory, extensionInstance := none } dcRef).2.2) := by
  unfold createInstance setExtensionInstance jassert
  simp only [hdc, if_false, hp, hv, if_true, Option.isSome_some, List.nil_append]
  cases (setExtensionInstanceVST3 K
            { plugin := p, factory := s.factory, extensionInstance := none } dcRef).1 <;> rfl

/-- The five paths of `setExtensionInstanceVST3`, in terms of what the target
hands out: its audio plugin instance, that instance's component, and what the
component's `queryInterface` stores for each of the two interface ids. -/
theorem setExtensionInstanceVST3_paths (K : ARAConstants) (w : MelodyneInstance)
    (dcRef : ARADocumentControllerRef) :
    (∀ pl comp ep2, w.plugin.audioPluginInstance = some pl →
      pl.platformSpecificData = some comp → comp.queryIPlugInEntryPoint2 = some ep2 →
      setExtensionInstanceVST3 K w dcRef
        = ((ep2.bindToDocumentControllerWithRoles dcRef (allRoles K) (allRoles K)).isSome,
           { plugin := w.plugin, factory := w.factory,
             extensionInstance :=
               ep2.bindToDocumentControllerWithRoles dcRef (allRoles K) (allRoles K) },
           [Event.queryInterface InterfaceId.IPlugInEntryPoint,
            Event.queryInterface InterfaceId.IPlugInEntryPoint2,
            Event.bindToDocumentControllerWithRoles dcRef (allRoles K) (allRoles K)
              (ep2.bindToDocumentControllerWithRoles dcRef (allRoles K) (allRoles K))]))
    ∧ (∀ pl comp ep, w.plugin.audioPluginInstance = some pl →
      pl.platformSpecificData = some comp → comp.queryIPlugInEntryPoint2 = none →
      comp.queryIPlugInEntryPoint = some ep →
      setExtensionInstanceVST3 K w dcRef
        = ((ep.bindToDocumentController dcRef).isSome,
           { plugin := w.plugin, factory := w.factory,
             extensionInstance := ep.bindToDocumentController dcRef },
           [Event.queryInterface InterfaceId.IPlugInEntryPoint,
            Event.queryInterface InterfaceId.IPlugInEntryPoint2,
            Event.bindToDocumentController dcRef (ep.bindToDocumentController dcRef)]))
    ∧ (∀ pl comp, w.plugin.audioPluginInstance = some pl →
      pl.platformSpecificData = some comp → comp.queryIPlugInEntryPoint2 = none →
      comp.queryIPlugInEntryPoint = none →
      setExtensionInstanceVST3 K w dcRef
        = (w.extensionInstance.isSome, w,
           [Event.queryInterface InterfaceId.IPlugInEntryPoint,
            Event.queryInterface InterfaceId.IPlugInEntryPoint2]))
    ∧ (∀ pl, w.plugin.audioPluginInstance = some pl → pl.platformSpecificData = none →
      setExtensionInstanceVST3 K w dcRef = (w.extensionInstance.isSome, w, []))
    ∧ (w.plugin.audioPluginInstance = none →
      setExtensionInstanceVST3 K w dcRef = (w.extensionInstance.isSome, w, [])) := by
  refine ⟨?_, ?_, ?_, ?_, ?_⟩
  · intro pl comp ep2 hpl hc h2
    unfold setExtensionInstanceVST3 getVST3EntryPoint getVST3EntryPoint2
    simp [hpl, hc, h2]
  · intro pl comp ep hpl hc h2 h1
    unfold setExtensionInstanceVST3 getVST3EntryPoint getVST3EntryPoint2
    simp [hpl, hc, h2, h1]
  · intro pl comp hpl hc h2 h1
    unfold setExtensionInstanceVST3 getVST3EntryPoint getVST3EntryPoint2
    simp [hpl, hc, h2, h1]
  · intro pl hpl hc
    unfold setExtensionInstanceVST3 getVST3EntryPoint getVST3EntryPoint2
    simp [hpl, hc]
  · intro hpl
    exact setExtensionInstanceVST3_no_instance K w dcRef hpl

/-! ## Properties of binding -/

/-- C1: on a sentinel the constructor left enabled, with a non-null `dcRef`,
`createInstance (p, dcRef)` completes, leaves the sentinel as it was and makes
at most one binding call; it returns an instance if and only if that call
returned a non-null handle; the instance returned carries exactly that handle,
the sentinel's factory and `p`; it returns `nullptr` exactly when no binding
call was made or the call returned a null handle. Path by path on what `p`
hands out: with `IPlugInEntryPoint2` exposed the call is
`bindToDocumentControllerWithRoles (dcRef, allRoles, allRoles)` on it, with only
`IPlugInEntryPoint` exposed it is `bindToDocumentController (dcRef)` on it, and
the result is the instance holding the handle that call returned when it is
non-null and `nullptr` when it is null; with neither entry point, no component
or no audio plugin instance the result is `nullptr` and no binding call is
made. -/
theorem C1_createInstance_all_or_nothing (K : ARAConstants) (B : Build) (E : Engine)
    (s : MelodyneInstanceFactory) (t0 : Trace) (p : ExternalPlugin)
    (dcRef : ARADocumentControllerRef)
    (hst : MelodyneInstanceFactory.construct K B E = .ok (s, t0))
    (hen : s.factory ≠ none) (hdc : dcRef ≠ none) :
    (∃ r t, createInstance K B s p dcRef = .ok (r, s, t)
      ∧ (bindingResults t).length ≤ 1
      ∧ (r.isSome ↔ ∃ h, bindingResults t = [some h])
      ∧ (∀ w, r = some w →
          w.extensionInstance ≠ none ∧ bindingResults t = [w.extensionInstance]
            ∧ w.factory = s.factory ∧ w.plugin = p)
      ∧ (r = none ↔ bindingResults t = [] ∨ bindingResults t = [none])
      ∧ (p.audioPluginInstance = none → r = none ∧ t = []))
    ∧ (∀ pl comp ep2, p.audioPluginInstance = some pl →
        pl.platformSpecificData = some comp → comp.queryIPlugInEntryPoint2 = some ep2 →
        createInstance K B s p dcRef
          = .ok (if (ep2.bindToDocumentControllerWithRoles dcRef (allRoles K)
                      (allRoles K)).isSome
                 then some
                   { plugin := p, factory := s.factory,
                     extensionInstance :=
                       ep2.bindToDocumentControllerWithRoles dcRef (allRoles K) (allRoles K) }
                 else none,
                 s,
                 [Event.queryInterface InterfaceId.IPlugInEntryPoint,
                  Event.queryInterface InterfaceId.IPlugInEntryPoint2,
                  Event.bindToDocumentControllerWithRoles dcRef (allRoles K) (allRoles K)
                    (ep2.bindToDocumentControllerWithRoles dcRef (allRoles K) (allRoles K))]))
    ∧ (∀ pl comp ep, p.audioPluginInstance = some pl →
        pl.platformSpecificData = some comp → comp.queryIPlugInEntryPoint2 = none →
        comp.queryIPlugInEntryPoint = some ep →
        createInstance K B s p dcRef
          = .ok (if (ep.bindToDocumentController dcRef).isSome
                 then some
                   { plugin := p, factory := s.factory,
                     extensionInstance := ep.bindToDocumentController dcRef }
                 else none,
                 s,
                 [Event.queryInterface InterfaceId.IPlugInEntryPoint,
                  Event.queryInterface InterfaceId.IPlugInEntryPoint2,
                  Event.bindToDocumentController dcRef (ep.bindToDocumentController dcRef)]))
    ∧ (∀ pl comp, p.audioPluginInstance = some pl →
        pl.platformSpecificData = some comp → comp.queryIPlugInEntryPoint2 = none →
        comp.queryIPlugInEntryPoint = none →
        createInstance K B s p dcRef
          = .ok (none, s,
                 [Event.queryInterface InterfaceId.IPlugInEntryPoint,
                  Event.queryInterface InterfaceId.IPlugInEntryPoint2]))
    ∧ (∀ pl, p.audioPluginInstance = some pl → pl.platformSpecificData = none →
        createInstance K B s p dcRef = .ok (none, s, []))
    ∧ (p.audioPluginInstance = none → createInstance K B s p dcRef = .ok (none, s, [])) := by
  obtain ⟨spl, hp, hv⟩ := enabled_sentinel_is_vst3 K B E s t0 hst hen
  have hcreate := createInstance_enabled K B s spl p dcRef hp hv hdc
  obtain ⟨hp2, hp1, hp0, hpc, hpn⟩ := setExtensionInstanceVST3_paths K
    { plugin := p, factory := s.factory, extensionInstance := none } dcRef
  refine ⟨?_, ?_, ?_, ?_, ?_, ?_⟩
  · have hspec := setExtensionInstanceVST3_spec K
      { plugin := p, factory := s.factory, extensionInstance := none } dcRef rfl
    have hnone := setExtensionInstanceVST3_no_instance K
      { plugin := p, factory := s.factory, extensionInstance := none } dcRef
    refine ⟨_, _, hcreate, ?_⟩
    generalize setExtensionInstanceVST3 K
      { plugin := p, factory := s.factory, extensionInstance := none } dcRef = res
      at hspec hnone
    obtain ⟨ok, w1, t1⟩ := res
    obtain ⟨hplug, hfac, hok, hbind⟩ := hspec
    simp only at hplug hfac hok hbind ⊢
    subst hok
    cases hext : w1.extensionInstance with
    | none =>
      rw [hext] at hbind
      simp only [Option.isSome_none, Bool.false_eq_true, if_false]
      refine ⟨?_, ?_, ?_, ?_, ?_⟩
      · rcases hbind with ⟨hb, -⟩ | hb <;> simp [hb]
      · rcases hbind with ⟨hb, -⟩ | hb <;> simp [hb]
      · intro w hw
        exact absurd hw (by simp)
      · rcases hbind with ⟨hb, -⟩ | hb <;> simp [hb]
      · intro hpn
        have := hnone hpn
        simp only [Prod.mk.injEq] at this
        exact ⟨trivial, this.2.2⟩
    | some h =>
      rw [hext] at hbind
      simp only [Option.isSome_some, if_true]
      have hb : bindingResults t1 = [some h] := by
        rcases hbind with ⟨-, hb⟩ | hb
        · exact absurd hb (by simp)
        · exact hb
      refine ⟨by simp [hb], by simp [hb], ?_, by simp [hb], ?_⟩
      · intro w hw
        simp only [Option.some.injEq] at hw
        subst hw
        exact ⟨by simp [hext], by rw [hb, hext], hfac, hplug⟩
      · intro hpn
        have := hnone hpn
        simp only [Prod.mk.injEq] at this
        rw [this.2.1] at hext
        exact absurd hext (by simp)
  · intro pl comp ep2 hpl hc h2
    rw [hcreate, hp2 pl comp ep2 hpl hc h2]
  · intro pl comp ep hpl hc h2 h1
    rw [hcreate, hp1 pl comp ep hpl hc h2 h1]
  · intro pl comp hpl hc h2 h1
    rw [hcreate, hp0 pl comp hpl hc h2 h1]
    rfl
  · intro pl hpl hc
    rw [hcreate, hpc pl hpl hc]
    rfl
  · intro hpl
    rw [hcreate, hpn hpl]
    rfl

/-- C1 at concrete inputs, on the sample enabled sentinel with document
controller 5: a target exposing both entry points yields the instance holding
handle 205 after the one ARA2 call; a legacy-only target yields the instance
holding handle 105 after the one ARA1 call; a target whose module returns a
null handle, a target without entry points and a target without an audio
plugin instance yield `nullptr`. -/
theorem C1_createInstance_all_or_nothing_witness :
    createInstance araSDK Sample.releaseBuild Sample.enabledSentinel Sample.target (some 5)
      = .ok (some { plugin := Sample.target, factory := some Sample.factory20,
                    extensionInstance := some 205 },
             Sample.enabledSentinel,
             [Event.queryInterface InterfaceId.IPlugInEntryPoint,
              Event.queryInterface InterfaceId.IPlugInEntryPoint2,
              Event.bindToDocumentControllerWithRoles (some 5) 7 7 (some 205)])
    ∧ createInstance araSDK Sample.releaseBuild Sample.enabledSentinel Sample.legacyTarget
        (some 5)
      = .ok (some { plugin := Sample.legacyTarget, factory := some Sample.factory20,
                    extensionInstance := some 105 },
             Sample.enabledSentinel,
             [Event.queryInterface InterfaceId.IPlugInEntryPoint,
              Event.queryInterface InterfaceId.IPlugInEntryPoint2,
              Event.bindToDocumentController (some 5) (some 105)])
    ∧ createInstance araSDK Sample.releaseBuild Sample.enabledSentinel Sample.refusingTarget
        (some 5)
      = .ok (none, Sample.enabledSentinel,
             [Event.queryInterface InterfaceId.IPlugInEntryPoint,
              Event.queryInterface InterfaceId.IPlugInEntryPoint2,
              Event.bindToDocumentControllerWithRoles (some 5) 7 7 none])
    ∧ createInstance araSDK Sample.releaseBuild Sample.enabledSentinel Sample.bareTarget
        (some 5)
      = .ok (none, Sample.enabledSentinel,
             [Event.queryInterface InterfaceId.IPlugInEntryPoint,
              Event.queryInterface InterfaceId.IPlugInEntryPoint2])
    ∧ createInstance araSDK Sample.releaseBuild Sample.enabledSentinel Sample.emptyTarget
        (some 5)
      = .ok (none, Sample.enabledSentinel, []) :=
  ⟨(C1_createInstance_all_or_nothing araSDK Sample.releaseBuild
      (Sample.engineWith Sample.factory20) Sample.enabledSentinel _ Sample.target (some 5)
      rfl (by simp [Sample.enabledSentinel]) (by simp)).2.1 _ _ Sample.entryPoint2 rfl rfl rfl,
   (C1_createInstance_all_or_nothing araSDK Sample.releaseBuild
      (Sample.engineWith Sample.factory20) Sample.enabledSentinel _ Sample.legacyTarget (some 5)
      rfl (by simp [Sample.enabledSentinel]) (by simp)).2.2.1 _ _
      (Sample.entryPoint Sample.factory20) rfl rfl rfl rfl,
   (C1_createInstance_all_or_nothing araSDK Sample.releaseBuild
      (Sample.engineWith Sample.factory20) Sample.enabledSentinel _ Sample.refusingTarget
      (some 5) rfl (by simp [Sample.enabledSentinel]) (by simp)).2.1 _ _
      { bindToDocumentControllerWithRoles := fun _ _ _ => none } rfl rfl rfl,
   (C1_createInstance_all_or_nothing araSDK Sample.releaseBuild
      (Sample.engineWith Sample.factory20) Sample.enabledSentinel _ Sample.bareTarget (some 5)
      rfl (by simp [Sample.enabledSentinel]) (by simp)).2.2.2.1 _ _ rfl rfl rfl rfl,
   (C1_createInstance_all_or_nothing araSDK Sample.releaseBuild
      (Sample.engineWith Sample.factory20) Sample.enabledSentinel _ Sample.emptyTarget (some 5)
      rfl (by simp [Sample.enabledSentinel]) (by simp)).2.2.2.2.2 rfl⟩

/-- C2: on a target with an audio plugin instance, what `setExtensionInstanceVST3`
does is fixed by what the instance's component hands out for the two interface
ids. It queries both; if `IPlugInEntryPoint2` is exposed (whatever the legacy
query gives) its only binding call is
`bindToDocumentControllerWithRoles (dcRef, allRoles, allRoles)` on it, with
`allRoles` the three roles or-ed together, and `bindToDocumentController` is
not called; if only `IPlugInEntryPoint` is exposed its only binding call is
`bindToDocumentController (dcRef)` on it; in both cases the handle stored and
the result are that call's; if neither is exposed, or the instance has no
component, no binding call is made, the instance is untouched, and on a fresh
instance (null handle) the result is failure. -/
theorem C2_binding_path (K : ARAConstants) (w : MelodyneInstance)
    (dcRef : ARADocumentControllerRef) (pl : AudioPluginInstance)
    (hpl : w.plugin.audioPluginInstance = some pl) :
    allRoles K
      = (K.kARAPlaybackRendererRole ||| K.kARAEditorRendererRole ||| K.kARAEditorViewRole)
    ∧ (∀ comp ep2, pl.platformSpecificData = some comp →
        comp.queryIPlugInEntryPoint2 = some ep2 →
        setExtensionInstanceVST3 K w dcRef
          = ((ep2.bindToDocumentControllerWithRoles dcRef (allRoles K) (allRoles K)).isSome,
             { plugin := w.plugin, factory := w.factory,
               extensionInstance :=
                 ep2.bindToDocumentControllerWithRoles dcRef (allRoles K) (allRoles K) },
             [Event.queryInterface InterfaceId.IPlugInEntryPoint,
              Event.queryInterface InterfaceId.IPlugInEntryPoint2,
              Event.bindToDocumentControllerWithRoles dcRef (allRoles K) (allRoles K)
                (ep2.bindToDocumentControllerWithRoles dcRef (allRoles K) (allRoles K))]))
    ∧ (∀ comp ep, pl.platformSpecificData = some comp →
        comp.queryIPlugInEntryPoint2 = none → comp.queryIPlugInEntryPoint = some ep →
        setExtensionInstanceVST3 K w dcRef
          = ((ep.bindToDocumentController dcRef).isSome,
             { plugin := w.plugin, factory := w.factory,
               extensionInstance := ep.bindToDocumentController dcRef },
             [Event.queryInterface InterfaceId.IPlugInEntryPoint,
              Event.queryInterface InterfaceId.IPlugInEntryPoint2,
              Event.bindToDocumentController dcRef (ep.bindToDocumentController dcRef)]))
    ∧ (∀ comp, pl.platformSpecificData = some comp →
        comp.queryIPlugInEntryPoint2 = none → comp.queryIPlugInEntryPoint = none →
        setExtensionInstanceVST3 K w dcRef
            = (w.extensionInstance.isSome, w,
               [Event.queryInterface InterfaceId.IPlugInEntryPoint,
                Event.queryInterface InterfaceId.IPlugInEntryPoint2])
          ∧ (w.extensionInstance = none → (setExtensionInstanceVST3 K w dcRef).1 = false))
    ∧ (pl.platformSpecificData = none →
        setExtensionInstanceVST3 K w dcRef = (w.extensionInstance.isSome, w, [])
          ∧ (w.extensionInstance = none → (setExtensionInstanceVST3 K w dcRef).1 = false)) := by
  obtain ⟨hp2, hp1, hp0, hpc, -⟩ := setExtensionInstanceVST3_paths K w dcRef
  refine ⟨rfl, ?_, ?_, ?_, ?_⟩
  · intro comp ep2 hc h2
    exact hp2 pl comp ep2 hpl hc h2
  · intro comp ep hc h2 h1
    exact hp1 pl comp ep hpl hc h2 h1
  · intro comp hc h2 h1
    refine ⟨hp0 pl comp hpl hc h2 h1, ?_⟩
    intro hw
    rw [hp0 pl comp hpl hc h2 h1]
    simp [hw]
  · intro hc
    refine ⟨hpc pl hpl hc, ?_⟩
    intro hw
    rw [hpc pl hpl hc]
    simp [hw]

/-- C2 at concrete inputs, with document controller 5 and a fresh instance: a
target exposing both entry points is bound through
`bindToDocumentControllerWithRoles (5, 7, 7)` only (handle 205); a target
exposing only the legacy entry point through `bindToDocumentController (5)`
only (handle 105); a target exposing neither is queried twice, not bound, and
the result is failure. -/
theorem C2_binding_path_witness :
    setExtensionInstanceVST3 araSDK
        { plugin := Sample.target, factory := none, extensionInstance := none } (some 5)
      = (true,
         { plugin := Sample.target, factory := none, extensionInstance := some 205 },
         [Event.queryInterface InterfaceId.IPlugInEntryPoint,
          Event.queryInterface InterfaceId.IPlugInEntryPoint2,
          Event.bindToDocumentControllerWithRoles (some 5) 7 7 (some 205)])
    ∧ setExtensionInstanceVST3 araSDK
        { plugin := Sample.legacyTarget, factory := none, extensionInstance := none } (some 5)
      = (true,
         { plugin := Sample.legacyTarget, factory := none, extensionInstance := some 105 },
         [Event.queryInterface InterfaceId.IPlugInEntryPoint,
          Event.queryInterface InterfaceId.IPlugInEntryPoint2,
          Event.bindToDocumentController (some 5) (some 105)])
    ∧ setExtensionInstanceVST3 araSDK
        { plugin := Sample.bareTarget, factory := none, extensionInstance := none } (some 5)
      = (false,
         { plugin := Sample.bareTarget, factory := none, extensionInstance := none },
         [Event.queryInterface InterfaceId.IPlugInEntryPoint,
          Event.queryInterface InterfaceId.IPlugInEntryPoint2]) :=
  ⟨(C2_binding_path araSDK
      { plugin := Sample.target, factory := none, extensionInstance := none } (some 5)
      (Sample.instanceWith Sample.factory20) rfl).2.1 _ Sample.entryPoint2 rfl rfl,
   (C2_binding_path araSDK
      { plugin := Sample.legacyTarget, factory := none, extensionInstance := none } (some 5)
      (Sample.legacyInstance Sample.factory20) rfl).2.2.1 _
      (Sample.entryPoint Sample.factory20) rfl rfl rfl,
   ((C2_binding_path araSDK
      { plugin := Sample.bareTarget, factory := none, extensionInstance := none } (some 5)
      _ rfl).2.2.2.1 _ rfl rfl rfl).1⟩

/-- C3: on any sentinel and for any plugin `p`, `createInstance (p, nullptr)`
returns `nullptr` and leaves the sentinel's members unchanged; the only thing
it can emit is the `jassert (plugin != nullptr)` report, so no binding call and
no entry-point query is made. -/
theorem C3_null_dcRef_guard (K : ARAConstants) (B : Build) (s : MelodyneInstanceFactory)
    (p : ExternalPlugin) :
    createInstance K B s p none = .ok (none, s, jassert B s.plugin.isSome)
    ∧ (∀ e ∈ jassert B s.plugin.isSome,
        e = Event.jassertfalse ∧ e.isBinding = false ∧ e.isQueryInterface = false)
    ∧ bindingResults (jassert B s.plugin.isSome) = []
    ∧ (s.plugin ≠ none → jassert B s.plugin.isSome = []) := by
  have hj : ∀ e ∈ jassert B s.plugin.isSome, e = Event.jassertfalse := by
    intro e he
    unfold jassert at he
    split at he
    · simp at he
    · exact jassertfalse_trace B e he
  refine ⟨?_, ?_, ?_, ?_⟩
  · unfold createInstance setExtensionInstance
    simp
  · intro e he
    rw [hj e he]
    exact ⟨rfl, rfl, rfl⟩
  · unfold jassert jassertfalse
    split
    · rfl
    · split <;> rfl
  · intro hne
    unfold jassert
    cases hp : s.plugin with
    | none => exact absurd hp hne
    | some pl => simp

/-- C4 at the failing input: with no ARA-compatible descriptor the constructor
leaves the sentinel disabled (`plugin == nullptr`, `factory == nullptr`), and on
it `createInstance` with the non-null document controller 5 does not return
`nullptr`: past the null-`dcRef` guard `setExtensionInstance` reads
`plugin->getPluginDescription()` through the null sentinel plugin. With a null
`dcRef` the same call returns `nullptr`, reporting only the failed
`jassert (plugin != nullptr)`. -/
theorem C4_disabled_sentinel_null_dereference :
    MelodyneInstanceFactory.construct araSDK Sample.debugBuild Sample.emptyEngine
      = .ok (Sample.disabledSentinel, [Event.getARACompatiblePlugDescriptions])
    ∧ createInstance araSDK Sample.debugBuild Sample.disabledSentinel Sample.target (some 5)
      = .error Fault.nullPointerDereference
    ∧ createInstance araSDK Sample.releaseBuild Sample.disabledSentinel Sample.target (some 5)
      = .error Fault.nullPointerDereference
    ∧ createInstance araSDK Sample.debugBuild Sample.disabledSentinel Sample.target none
      = .ok (none, Sample.disabledSentinel, [Event.jassertfalse]) :=
  ⟨rfl, rfl, rfl, rfl⟩

/-! ## The singleton: `getInstance` and `shutdown` -/

theorem getFactoryVST3_events (s : MelodyneInstanceFactory) (c : Option ARAFactory) (t : Trace)
    (h : getFactoryVST3 s = .ok (c, t)) :
    Event.getARACompatiblePlugDescriptions ∉ t := by
  unfold getFactoryVST3 at h
  cases hp : s.plugin with
  | none => simp [hp] at h
  | some pl =>
    simp only [hp] at h
    unfold getVST3EntryPoint at h
    cases hd : pl.platformSpecificData with
    | none =>
      simp [hd] at h
      obtain ⟨-, rfl⟩ := h
      simp
    | some comp =>
      cases hq : comp.queryIPlugInEntryPoint with
      | none =>
        simp [hd, hq] at h
        obtain ⟨-, rfl⟩ := h
        simp
      | some ep =>
        simp [hd, hq] at h
        obtain ⟨-, rfl⟩ := h
        simp

theorem getFactoryForPlugin_events (K : ARAConstants) (pl : AudioPluginInstance)
    (s1 : MelodyneInstanceFactory) (t1 : Trace)
    (h : getFactoryForPlugin K { factory := none, plugin := some pl } = .ok (s1, t1)) :
    Event.getARACompatiblePlugDescriptions ∉ t1 := by
  by_cases hv : pl.pluginDescription.pluginFormatName = "VST3"
  · obtain ⟨c, t, hf⟩ := getFactoryVST3_total none pl
    rw [getFactoryForPlugin_vst3 K _ pl c t rfl hv hf] at h
    simp only [Except.ok.injEq, Prod.mk.injEq] at h
    rw [← h.2]
    exact getFactoryVST3_events _ c t hf
  · rw [getFactoryForPlugin_not_vst3 K pl hv] at h
    simp only [Except.ok.injEq, Prod.mk.injEq] at h
    rw [← h.2]
    simp

theorem createMelodynePlugin_count (E : Engine) :
    (createMelodynePlugin E).2.count Event.getARACompatiblePlugDescriptions = 1 := by
  rw [createMelodynePlugin_snd, createMelodynePluginFor_snd, List.count_cons_self,
    List.count_eq_zero_of_not_mem]
  intro hmem
  simp only [List.mem_map] at hmem
  obtain ⟨pd, -, hpd⟩ := hmem
  exact absurd hpd (by simp)

theorem jassertfalse_count (B : Build) :
    (jassertfalse B).count Event.getARACompatiblePlugDescriptions = 0 := by
  apply List.count_eq_zero_of_not_mem
  intro hmem
  exact absurd (jassertfalse_trace B _ hmem) (by simp)

/-- Every run of the constructor asks the plugin manager for the descriptors
exactly once. -/
theorem construct_discovery_count (K : ARAConstants) (B : Build) (E : Engine)
    (s : MelodyneInstanceFactory) (t : Trace)
    (hst : MelodyneInstanceFactory.construct K B E = .ok (s, t)) :
    t.count Event.getARACompatiblePlugDescriptions = 1 := by
  cases hc : (createMelodynePlugin E).1 with
  | none =>
    rw [construct_no_plugin K B E hc] at hst
    simp only [Except.ok.injEq, Prod.mk.injEq] at hst
    rw [← hst.2]
    exact createMelodynePlugin_count E
  | some pl =>
    obtain ⟨c, t1, hg, -, -⟩ := getFactoryForPlugin_total K pl
    have h1 : t1.count Event.getARACompatiblePlugDescriptions = 0 :=
      List.count_eq_zero_of_not_mem (getFactoryForPlugin_events K pl _ t1 hg)
    cases c with
    | none =>
      rw [construct_no_factory K B E pl _ t1 hc hg rfl] at hst
      simp only [Except.ok.injEq, Prod.mk.injEq] at hst
      rw [← hst.2]
      simp [List.count_append, createMelodynePlugin_count, h1, jassertfalse_count]
    | some f =>
      cases hu : canBeUsedAsTimeStretchEngine K f with
      | false =>
        rw [construct_unusable K B E pl _ t1 f hc hg rfl hu] at hst
        simp only [Except.ok.injEq, Prod.mk.injEq] at hst
        rw [← hst.2]
        simp [List.count_append, createMelodynePlugin_count, h1, jassertfalse_count]
      | true =>
        rw [construct_accepted K B E pl _ t1 f hc hg rfl hu] at hst
        simp only [Except.ok.injEq, Prod.mk.injEq] at hst
        rw [← hst.2]
        simp [List.count_append, createMelodynePlugin_count, h1]

theorem getInstanceTimes_object (K : ARAConstants) (B : Build) (E : Engine)
    (s : MelodyneInstanceFactory) (n : Nat) :
    getInstanceTimes K B E n (.object s) = .ok (List.replicate n s, .object s, []) := by
  induction n with
  | zero => rfl
  | succ n ih =>
    unfold getInstanceTimes
    simp [getInstance, ih, List.replicate_succ]

/-- C7: starting from the zero-initialised static pointer, `n + 1` successive
calls of `getInstance()` all complete and return the same object, the one the
constructor built; the calls they make are those of one constructor run (one
descriptor discovery, at most one `initializeARAWithConfiguration`), all made
by the first call; afterwards the pointer holds that object, and every further
call returns it, makes no call and leaves the pointer and the object unchanged. -/
theorem C7_getInstance_constructs_once (K : ARAConstants) (B : Build) (E : Engine) (n : Nat) :
    ∃ s t, MelodyneInstanceFactory.construct K B E = .ok (s, t)
      ∧ getInstance K B E .null = .ok (s, .object s, t)
      ∧ getInstanceTimes K B E (n + 1) .null = .ok (List.replicate (n + 1) s, .object s, t)
      ∧ t.count Event.getARACompatiblePlugDescriptions = 1
      ∧ (t.filter Event.isInitializeARA).length ≤ 1
      ∧ ∀ E2, getInstance K B E2 (.object s) = .ok (s, .object s, []) := by
  obtain ⟨s, t, hst, hcase⟩ := construct_total K B E
  have hfirst : getInstance K B E .null = .ok (s, .object s, t) := by
    simp [getInstance, hst]
  refine ⟨s, t, hst, hfirst, ?_, construct_discovery_count K B E s t hst, ?_, fun _ => rfl⟩
  · unfold getInstanceTimes
    simp [hfirst, getInstanceTimes_object, List.replicate_succ]
  · rcases hcase with ⟨-, -, hno⟩ | ⟨f, pl, t1, -, -, -, -, hno, rfl⟩
    · rw [List.filter_eq_nil_iff.mpr (fun x hx => by simp [hno x hx])]
      simp
    · rw [filter_isInitializeARA_append_singleton t1
        (Event.initializeARAWithConfiguration f _) hno rfl]
      simp

/-- C8, as the code has it: `shutdown()` on a sentinel holding a factory and a
plugin calls `uninitializeARA` on the factory exactly once and then releases
the plugin instance; the object is destroyed without its `factory` member
being cleared and the static pointer is left pointing to it, so a second
`shutdown()` and a later `getInstance()` go through a dangling pointer. -/
theorem C8_shutdown_once (s : MelodyneInstanceFactory) (f : ARAFactory)
    (pl : AudioPluginInstance) (hf : s.factory = some f) (hp : s.plugin = some pl) :
    shutdown (.object s)
      = .ok (.deleted { factory := some f, plugin := none },
             [Event.uninitializeARA f, Event.deletePluginInstance])
    ∧ (MelodyneInstanceFactory.destruct s).1.factory = some f
    ∧ (MelodyneInstanceFactory.destruct s).1.plugin = none
    ∧ (MelodyneInstanceFactory.destruct s).2.count (Event.uninitializeARA f) = 1
    ∧ shutdown (.deleted { factory := some f, plugin := none })
        = .error Fault.danglingPointer
    ∧ ∀ K B E, getInstance K B E (.deleted { factory := some f, plugin := none })
        = .error Fault.danglingPointer := by
  refine ⟨?_, ?_, ?_, ?_, rfl, fun _ _ _ => rfl⟩
  · simp [shutdown, MelodyneInstanceFactory.destruct, hf, hp]
  · simp [MelodyneInstanceFactory.destruct, hf]
  · simp [MelodyneInstanceFactory.destruct]
  · simp [MelodyneInstanceFactory.destruct, hf, hp]

/-- C8 at a concrete input: the sample enabled sentinel. -/
theorem C8_shutdown_once_witness :
    shutdown (.object Sample.enabledSentinel)
      = .ok (.deleted { factory := some Sample.factory20, plugin := none },
             [Event.uninitializeARA Sample.factory20, Event.deletePluginInstance]) :=
  (C8_shutdown_once Sample.enabledSentinel Sample.factory20
    (Sample.instanceWith Sample.factory20) rfl rfl).1

/-- C8 fails as stated: after `shutdown()` on the sample enabled sentinel the
static pointer is neither null nor on a disabled object but on the destroyed
one, whose `factory` member still holds the factory, and a second `shutdown()`
is not a call that completes without `uninitializeARA`: it deletes through the
dangling pointer. -/
theorem C8_counterexample :
    shutdown (.object Sample.enabledSentinel)
      = .ok (.deleted { factory := some Sample.factory20, plugin := none },
             [Event.uninitializeARA Sample.factory20, Event.deletePluginInstance])
    ∧ shutdown (.deleted { factory := some Sample.factory20, plugin := none })
      = .error Fault.danglingPointer :=
  ⟨rfl, rfl⟩

end Tracktion
